import Mathlib

/-!
Verification of the conversation-flow orchestrator `discord-ext-flow`
(modules `controller.py`, `util.py`, `view.py`, `result.py`, `model.py`,
`external_task.py`) against its natural-language specification.

The embedding is shallow: the pure decision logic is translated into Lean
functions; the asynchronous parts (the race over external tasks inside
`Controller._wait_result`, the screen loop inside `Controller.invoke`) are
modelled as explicit state passing driven by an environment schedule
(`RaceStep`): each race iteration, the schedule says which in-flight tasks
completed (and how), in which order the Python `set` of done tasks is
iterated, and which tasks were registered during the iteration.  Discord
I/O (`send_helper`, `response.edit_message`, logging in `on_error`) is
modelled as an event trace.

Notes on the source tree being embedded:
- `controller.py` calls a three-way `wait_first_result`; `util.py` ships the
  four-way `wait_first_completed_external_result_task`.  The loop below
  follows `Controller._wait_result`'s own partition code (lines 213-227),
  which skips cancelled tasks and splits raised exceptions into
  `Exception` (recoverable) and other `BaseException` (fatal); the util
  variant is embedded separately as `wait_first_completed_external_result_task`.
- `controller.py` calls `exec_result(view, t.result())` while `util.py`
  defines `exec_result(view, result, edit)`; the `edit` target only feeds
  `send_helper`, so it is absorbed into the emitted send event.
- `_View._wait` (the body of the implicit interaction-wait task) is absent
  from the tree; per the spec's activation bridge, an activated element's
  callback Result surfaces as the completion of that task, so its
  completion value is supplied by the schedule like any external task.
  Its re-registration (done callback of `_get_view_wait_task`) is likewise
  represented through the schedule's registration lists.
-/

namespace Flow

/-- Interactive element kinds of `model.py` (`Message.items` entries). -/
inductive Item where
  | button
  | link
  | select
  | userSelect
  | roleSelect
  | mentionableSelect
  | channelSelect
deriving DecidableEq, Repr

/-- A Discord interaction; only the state the core logic inspects is kept:
its identity and whether `interaction.response.is_done()` holds. -/
structure Interaction where
  iid : Nat
  response_is_done : Bool
deriving DecidableEq, Repr

/-- The render specification `model.Message`.  Payload fields that never
influence control flow (embeds, files, flags passed verbatim to Discord)
are summarised by `content`; the control-relevant fields are `items`
(`None` versus a concrete sequence), `edit_original` and `disable_items`. -/
structure Message where
  content : Option String
  items : Option (List Item)
  edit_original : Bool
  disable_items : Bool
deriving DecidableEq, Repr

/-- A `ModelBase` instance: `mid` models Python object identity (models are
compared with `!=` in `Controller.invoke`, which for `ModelBase` is
identity), `msg` is the value its `message()` hook produces. -/
structure ModelBase where
  mid : Nat
  msg : Message
deriving DecidableEq, Repr

/-- The enum `result._ResultTypeEnum`. -/
inductive ResultType where
  | MESSAGE
  | MODEL
  | CONTINUE
  | FINISH
deriving DecidableEq, Repr

/-- The dataclass `result.Result`. -/
structure Result where
  type : ResultType
  model : Option ModelBase
  message : Option Message
  interaction : Option Interaction
  is_end : Bool
deriving DecidableEq, Repr

/-- Classmethod `Result.send_message`. -/
def Result.send_message (message : Message) (interaction : Option Interaction) : Result :=
  { type := ResultType.MESSAGE, model := none, message := some message,
    interaction := interaction, is_end := false }

/-- Classmethod `Result.next_model`. -/
def Result.next_model (model : ModelBase) (interaction : Option Interaction) : Result :=
  { type := ResultType.MODEL, model := some model, message := none,
    interaction := interaction, is_end := false }

/-- Classmethod `Result.continue_flow`. -/
def Result.continue_flow : Result :=
  { type := ResultType.CONTINUE, model := none, message := none,
    interaction := none, is_end := false }

/-- Classmethod `Result.finish_flow`. -/
def Result.finish_flow : Result :=
  { type := ResultType.FINISH, model := none, message := none,
    interaction := none, is_end := true }

/-- The state of `view._View` that the core logic reads and writes: its
item children, the `discord.ui.View` finished flag (set by `stop()`), and
the `result` slot filled by the `MODEL` branch of `set_result`. -/
structure View where
  items : List Item
  finished : Bool
  result : Option (ModelBase × Interaction)
deriving DecidableEq, Repr

/-- Method `View.clear_items`. -/
def View.clear_items (v : View) : View :=
  { v with items := [] }

/-- Method `_View.set_items`: adds one child per item config. -/
def View.set_items (v : View) (items : List Item) : View :=
  { v with items := v.items ++ items }

/-- Method `View.stop`. -/
def View.stop (v : View) : View :=
  { v with finished := true }

/-- Method `View.is_finished`. -/
def View.is_finished (v : View) : Bool :=
  v.finished

/-- Class of an exception raised inside an external task: a Python
`Exception` is recoverable, any other `BaseException` is fatal. -/
inductive ExcClass where
  | recoverable
  | fatal
deriving DecidableEq, Repr

/-- An exception raised by an external task (`code` is its identity). -/
structure BExc where
  cls : ExcClass
  code : Nat
deriving DecidableEq, Repr

/-- Exception classes raised by the embedded code paths.
`assertionError` stands for a failing `assert`; `baseExceptionGroup`
carries the fatal exceptions collected in `Controller._wait_result`. -/
inductive Err where
  | valueError (msg : String)
  | runtimeError (msg : String)
  | assertionError
  | baseExceptionGroup (excs : List BExc)
deriving DecidableEq, Repr

/-- Observable side effects of the embedded code, recorded as a trace:
Discord sends/edits, the model lifecycle hooks, task cancellation and the
awaited unwind of a cancelled task, and the `on_error` hook call. -/
inductive Event where
  | beforeInvoke (mid : Nat)
  | afterInvoke (mid : Nat)
  | send (msg : Message) (hasView : Bool)
  | editMsg
  | cancelTask (tid : Nat)
  | awaitTask (tid : Nat)
  | onError (excs : List BExc)
deriving DecidableEq, Repr

/-- Predicate picking out render dispatches in a trace. -/
def Event.isSend : Event → Bool
  | Event.send _ _ => true
  | _ => false

/-- Function `util.exec_result` (the routing of a `Result` produced by an
external task): requires `result._interaction` before inspecting the
variant, then dispatches on `result._type`.  The `edit` target only feeds
`send_helper` and is absorbed into the emitted send event; on success it
returns the view after the routing, the value returned to
`Controller._wait_result` (`Some` means a model transition), and the
emitted events. -/
def exec_result (view : View) (result : Result) :
    Except Err (View × Option (ModelBase × Interaction) × List Event) :=
  match result.interaction with
  | none => Except.error (Err.valueError "result._interaction is None.")
  | some messageable =>
    match result.type with
    | ResultType.MESSAGE =>
      match result.message with
      | none => Except.error Err.assertionError
      | some msg =>
        let v1 := View.set_items (View.clear_items view) (msg.items.getD [])
        let v2 := if (msg.items.getD []).isEmpty then v1.stop else v1
        Except.ok (v2, none, [Event.send msg true])
    | ResultType.MODEL =>
      match result.model with
      | none => Except.error Err.assertionError
      | some m => Except.ok (view.stop, some (m, messageable), [])
    | ResultType.CONTINUE | ResultType.FINISH =>
      if !messageable.response_is_done then
        Except.error (Err.runtimeError "Callback MUST consume interaction.")
      else
        Except.ok ((if result.is_end then view.stop else view), none, [])

/-- Method `view._View.set_result` (the routing of a `Result` returned by
an item callback): the callback's own `interaction` is the fallback when
`result._interaction` is absent. -/
def View.set_result (view : View) (result : Result) (interaction : Interaction) :
    Except Err (View × List Event) :=
  let interaction := match result.interaction with
    | some i => i
    | none => interaction
  match result.type with
  | ResultType.MESSAGE =>
    match result.message with
    | none => Except.error Err.assertionError
    | some msg =>
      let v1 := View.set_items (View.clear_items view) (msg.items.getD [])
      let evs := if msg.edit_original then [Event.editMsg] else [Event.send msg true]
      let v2 := if (msg.items.getD []).isEmpty then v1.stop else v1
      Except.ok (v2, evs)
  | ResultType.MODEL =>
    match result.model with
    | none => Except.error Err.assertionError
    | some m =>
      Except.ok ({ items := view.items, finished := true,
                   result := some (m, interaction) }, [])
  | ResultType.CONTINUE | ResultType.FINISH =>
    if !interaction.response_is_done then
      Except.error (Err.runtimeError "Callback MUST consume interaction.")
    else
      Except.ok ((if result.is_end then view.stop else view), [])

/-- Enum `ExternalTaskLifeTime` of `controller.py`. -/
inductive LifeTime where
  | PERSISTENT
  | MODEL
deriving DecidableEq, Repr

/-- Runtime status of an `asyncio.Task` wrapped by `ExternalResultTask`:
still running, completed with a `Result`, completed by raising, or
cancelled. -/
inductive TStatus where
  | running
  | success (r : Result)
  | failed (e : BExc)
  | cancelled
deriving DecidableEq, Repr

/-- Whether the task is still pending. -/
def TStatus.isRunning : TStatus → Bool
  | TStatus.running => true
  | _ => false

/-- An `external_task.ExternalResultTask`: `tid` is the registration index
(object identity), `isViewWait` marks the implicit `inner-view-wait` task
registered by `Controller._get_view_wait_task`. -/
structure ETask where
  tid : Nat
  life_time : LifeTime
  isViewWait : Bool
  status : TStatus
deriving DecidableEq, Repr

/-- Method `ExternalResultTask.done`. -/
def ETask.done (t : ETask) : Bool :=
  !t.status.isRunning

/-- Whether `task.result()` returns a `Result` without raising. -/
def ETask.isSuccess (t : ETask) : Bool :=
  match t.status with
  | TStatus.success _ => true
  | _ => false

/-- The task-owning state of a `Controller`: the two live-task lists and
the next fresh registration index. -/
structure CState where
  persistent_tasks : List ETask
  model_tasks : List ETask
  nextId : Nat
deriving DecidableEq, Repr

/-- Method `Controller.create_external_result`: wraps the coroutine in a
task (scheduling it, never suspending the caller) and appends it to the
list selected by `life_time`.  Returns the updated controller state and
the task handle. -/
def create_external_result (st : CState) (life_time : LifeTime) : CState × ETask :=
  let task : ETask :=
    { tid := st.nextId, life_time := life_time, isViewWait := false, status := TStatus.running }
  match life_time with
  | LifeTime.PERSISTENT =>
    ({ st with persistent_tasks := st.persistent_tasks ++ [task], nextId := st.nextId + 1 }, task)
  | LifeTime.MODEL =>
    ({ st with model_tasks := st.model_tasks ++ [task], nextId := st.nextId + 1 }, task)

/-- Method `Controller._get_view_wait_task`: registers the implicit
`inner-view-wait` task with lifetime `MODEL`. -/
def registerWait (st : CState) : CState :=
  { persistent_tasks := st.persistent_tasks,
    model_tasks := st.model_tasks ++
      [{ tid := st.nextId, life_time := LifeTime.MODEL, isViewWait := true,
         status := TStatus.running }],
    nextId := st.nextId + 1 }

/-- Function `util.force_cancel_tasks`: `cancel()` every task (a no-op on
a finished one), then `gather` awaits the unwind of each.  Returns the
tasks after cancellation and the emitted cancel/await trace. -/
def force_cancel_tasks (ts : List ETask) : List ETask × List Event :=
  (ts.map (fun t => if t.done then t else { t with status := TStatus.cancelled }),
   ts.map (fun t => Event.cancelTask t.tid) ++ ts.map (fun t => Event.awaitTask t.tid))

/-- Environment schedule for one iteration of the race loop: which tasks
completed while the loop awaited (`completions`, keyed by task id — only a
running task can complete), the order in which the Python `set` of
simultaneously-done tasks is iterated (`doneOrder`; Python guarantees no
particular order, so it is an input; a faithful schedule enumerates
exactly the done set), and the tasks registered during the iteration
(callbacks running inside the race may call `create_external_result`;
the re-registered `inner-view-wait` task also arrives this way). -/
structure RaceStep where
  completions : List (Nat × TStatus)
  doneOrder : List Nat
  newPersistent : List ETask
  newModel : List ETask
deriving Repr

/-- Completion of one task by the environment: only a running task whose
id appears in the schedule changes status. -/
def applyCompletion (cs : List (Nat × TStatus)) (t : ETask) : ETask :=
  if t.status.isRunning then
    match cs.lookup t.tid with
    | some s => { t with status := s }
    | none => t
  else t

/-- Pointwise completion of a task list. -/
def applyCompletions (cs : List (Nat × TStatus)) (ts : List ETask) : List ETask :=
  ts.map (applyCompletion cs)

/-- Lines 207-210 of `controller.py`: the raced set is the union of the
not-yet-done persistent and model tasks (already-finished tasks are
excluded, so a task that completed before the union is never consumed). -/
def snapshot (st : CState) : List ETask :=
  st.persistent_tasks.filter (fun t => !t.done) ++
    st.model_tasks.filter (fun t => !t.done)

/-- Controller state after an iteration's environment step: completions
applied to both lists, tasks registered during the iteration appended. -/
def stepState (st : CState) (step : RaceStep) : CState :=
  { persistent_tasks := applyCompletions step.completions st.persistent_tasks ++ step.newPersistent,
    model_tasks := applyCompletions step.completions st.model_tasks ++ step.newModel,
    nextId := st.nextId }

/-- Lines 216-222 of `controller.py` restricted to fatal failures: the
exceptions of raced tasks that raised a `BaseException` that is not an
`Exception` (cancelled and still-pending tasks are skipped). -/
def fatalExcs (ts : List ETask) : List BExc :=
  ts.filterMap (fun t =>
    match t.status with
    | TStatus.failed e => if e.cls = ExcClass.fatal then some e else none
    | _ => none)

/-- Lines 216-222 of `controller.py` restricted to recoverable failures:
the exceptions of raced tasks that raised an `Exception`. -/
def recoverableExcs (ts : List ETask) : List BExc :=
  ts.filterMap (fun t =>
    match t.status with
    | TStatus.failed e => if e.cls = ExcClass.recoverable then some e else none
    | _ => none)

/-- Iteration of the done set in the order chosen by the environment
(Python `set` iteration order is unspecified). -/
def orderBy (order : List Nat) (ts : List ETask) : List ETask :=
  order.filterMap (fun i => ts.find? (fun t => t.tid == i))

/-- Result of lines 229-233 of `controller.py` (the `for t in done_tasks`
loop): either the loop returned (with a transition or `None`), or it fell
through to the next `while` iteration. -/
inductive DoneOut where
  | returned (r : Option (ModelBase × Interaction))
  | fellThrough
deriving DecidableEq, Repr

/-- Lines 229-233 of `controller.py`: feed each done task's `Result`
through `exec_result`; return as soon as a call yields a transition or
leaves the view finished; exceptions raised by `exec_result` propagate. -/
def processDone : View → List ETask → Except Err (View × DoneOut × List Event)
  | view, [] => Except.ok (view, DoneOut.fellThrough, [])
  | view, t :: rest =>
    match t.status with
    | TStatus.success r =>
      match exec_result view r with
      | Except.error e => Except.error e
      | Except.ok (v1, ret, evs) =>
        if ret.isSome || v1.is_finished then Except.ok (v1, DoneOut.returned ret, evs)
        else
          match processDone v1 rest with
          | Except.error e => Except.error e
          | Except.ok (v2, out, evs2) => Except.ok (v2, out, evs ++ evs2)
    | _ => processDone view rest

/-- Outcome of `Controller._wait_result` driven by a finite schedule:
`ret` is a return from the method, `blocked` means the schedule ran out
while the loop was still suspended in an await, `err` an exception
propagating out of the method.  Each carries the controller state, the
view, and the emitted trace. -/
inductive WaitRes where
  | ret (r : Option (ModelBase × Interaction)) (st : CState) (view : View) (evs : List Event)
  | blocked (st : CState) (view : View) (evs : List Event)
  | err (e : Err) (st : CState) (view : View) (evs : List Event)
deriving DecidableEq, Repr

/-- Trace prefixing for `WaitRes`. -/
def WaitRes.prependEvents (evs : List Event) : WaitRes → WaitRes
  | WaitRes.ret r st view e => WaitRes.ret r st view (evs ++ e)
  | WaitRes.blocked st view e => WaitRes.blocked st view (evs ++ e)
  | WaitRes.err er st view e => WaitRes.err er st view (evs ++ e)

/-- Method `Controller._wait_result` (lines 204-235 of `controller.py`),
one recursive call per `while` iteration.  The three-way
`wait_first_result` it calls is absent from the tree; modelled from the
spec: it partitions the raced snapshot into done, raised and pending,
raising `ValueError` when asked to await an empty set (`asyncio.wait`'s
behaviour, reached when the snapshot is empty), and suspending until at
least one raced task completes.  The subsequent partition of raised
tasks into recoverable and fatal and the handling of both follow the
controller's own code: fatal exceptions are re-raised as a group before
anything else, recoverable ones are aggregated into a single `on_error`
call, then the done tasks are consumed in the environment's set order. -/
def _wait_result : List RaceStep → CState → View → WaitRes
  | [], st, view =>
    if view.is_finished then WaitRes.ret none st view []
    else WaitRes.blocked st view []
  | step :: rest, st, view =>
    if view.is_finished then WaitRes.ret none st view []
    else
      let snap := snapshot st
      if snap.isEmpty then
        WaitRes.err (Err.valueError "Set of Tasks or Futures is empty.") st view []
      else
        let st1 := stepState st step
        let snapC := applyCompletions step.completions snap
        if snapC.all (fun t => !t.done) then WaitRes.blocked st1 view []
        else
          let fat := fatalExcs snapC
          if !fat.isEmpty then
            WaitRes.err (Err.baseExceptionGroup fat) st1 view []
          else
            let recs := recoverableExcs snapC
            let evs0 := if recs.isEmpty then ([] : List Event) else [Event.onError recs]
            let done_tasks := orderBy step.doneOrder (snapC.filter ETask.isSuccess)
            match processDone view done_tasks with
            | Except.error e => WaitRes.err e st1 view evs0
            | Except.ok (v1, DoneOut.returned r, evs1) => WaitRes.ret r st1 v1 (evs0 ++ evs1)
            | Except.ok (v1, DoneOut.fellThrough, evs1) =>
              (_wait_result rest st1 v1).prependEvents (evs0 ++ evs1)

/-- The named tuple `util.WaitResult`. -/
structure WaitResult where
  done : List ETask
  base_exceptions : List ETask
  exceptions : List ETask
  pending : List ETask
deriving DecidableEq, Repr

/-- Outcome of `util.wait_first_completed_external_result_task` on the
task statuses observed when its `await` returns: `errEmpty` is the
`ValueError` `asyncio.wait` raises on an empty set, `blockedForever` the
case where no raced task ever completes. -/
inductive WaitFirstRes where
  | ok (w : WaitResult)
  | errEmpty
  | blockedForever
deriving DecidableEq, Repr

/-- Function `util.wait_first_completed_external_result_task` (lines
181-213 of `util.py`), on the statuses the tasks have once the underlying
`await wait(..., return_when=FIRST_COMPLETED)` has returned.  Note the
difference from the controller's own partition: here a cancelled task
lands in `base_exceptions` (`task.result()` raises `CancelledError`),
whereas `Controller._wait_result` skips cancelled tasks. -/
def wait_first_completed_external_result_task (fs : List ETask) : WaitFirstRes :=
  if fs.all (fun t => !t.done) then
    (if fs.isEmpty then WaitFirstRes.errEmpty else WaitFirstRes.blockedForever)
  else
    WaitFirstRes.ok
      { done := fs.filter ETask.isSuccess,
        base_exceptions := fs.filter (fun t =>
          match t.status with
          | TStatus.failed e => e.cls = ExcClass.fatal
          | TStatus.cancelled => true
          | _ => false),
        exceptions := fs.filter (fun t =>
          match t.status with
          | TStatus.failed e => e.cls = ExcClass.recoverable
          | _ => false),
        pending := fs.filter (fun t => !t.done) }

/-- Outcome of `Controller._send`: `done` is a `None` return (the outer
loop breaks), `next` a model transition, `blocked` schedule exhaustion
while still waiting, `err` a propagating exception. -/
inductive SendRes where
  | done (st : CState) (evs : List Event)
  | next (m : ModelBase) (st : CState) (evs : List Event)
  | blocked (st : CState) (evs : List Event)
  | err (e : Err) (st : CState) (evs : List Event)
deriving DecidableEq, Repr

/-- Method `Controller._send` (lines 165-194 of `controller.py`): run
`before_invoke`, produce the message; if `msg.items is None` send without
a view, run `after_invoke` and return `None` (terminal screen); otherwise
build the view, send, register the implicit wait task and enter
`_wait_result`; afterwards optionally disable items with one corrective
edit, run `after_invoke`, and surface `_wait_result`'s return. -/
def _send (st : CState) (m : ModelBase) (steps : List RaceStep) : SendRes :=
  match m.msg.items with
  | none =>
    SendRes.done st [Event.beforeInvoke m.mid, Event.send m.msg false, Event.afterInvoke m.mid]
  | some items =>
    let view : View := { items := items, finished := false, result := none }
    let st1 := registerWait st
    let evs1 := [Event.beforeInvoke m.mid, Event.send m.msg true]
    match _wait_result steps st1 view with
    | WaitRes.ret r st2 _v2 evs2 =>
      let evs3 := if m.msg.disable_items then [Event.editMsg] else ([] : List Event)
      match r with
      | none => SendRes.done st2 (evs1 ++ evs2 ++ evs3 ++ [Event.afterInvoke m.mid])
      | some (m2, _i) => SendRes.next m2 st2 (evs1 ++ evs2 ++ evs3 ++ [Event.afterInvoke m.mid])
    | WaitRes.blocked st2 _v2 evs2 => SendRes.blocked st2 (evs1 ++ evs2)
    | WaitRes.err e st2 _v2 evs2 => SendRes.err e st2 (evs1 ++ evs2)

/-- Outcome of `Controller.invoke`: normal return, a propagating
exception (re-raised after the exit-stack cleanup), or schedule
exhaustion while a screen was still waiting. -/
inductive InvokeRes where
  | ok (st : CState) (evs : List Event)
  | raised (e : Err) (st : CState) (evs : List Event)
  | blocked (st : CState) (evs : List Event)
deriving DecidableEq, Repr

/-- Trace prefixing for `InvokeRes`. -/
def InvokeRes.prependEvents (evs : List Event) : InvokeRes → InvokeRes
  | InvokeRes.ok st e => InvokeRes.ok st (evs ++ e)
  | InvokeRes.raised er st e => InvokeRes.raised er st (evs ++ e)
  | InvokeRes.blocked st e => InvokeRes.blocked st (evs ++ e)

/-- The `while True` loop of `Controller.invoke` (lines 130-137), one
schedule entry per `_send` call: break when `_send` returns `None`; on a
transition, when the returned model differs from the current one
(`model != _model`, identity for `ModelBase`), force-cancel and await all
model-lifetime tasks before the next iteration renders. -/
def invokeLoop : List (List RaceStep) → CState → ModelBase → InvokeRes
  | [], st, _m => InvokeRes.blocked st []
  | steps :: rest, st, m =>
    match _send st m steps with
    | SendRes.done st1 evs => InvokeRes.ok st1 evs
    | SendRes.blocked st1 evs => InvokeRes.blocked st1 evs
    | SendRes.err e st1 evs => InvokeRes.raised e st1 evs
    | SendRes.next m2 st1 evs =>
      if m2.mid = m.mid then
        (invokeLoop rest st1 m).prependEvents evs
      else
        let c := force_cancel_tasks st1.model_tasks
        (invokeLoop rest { st1 with model_tasks := c.1 } m2).prependEvents (evs ++ c.2)

/-- State after the `cleanup` pushed on `invoke`'s exit stack (lines
123-125): force-cancel model tasks, then persistent tasks. -/
def cleanupState (st : CState) : CState :=
  { st with model_tasks := (force_cancel_tasks st.model_tasks).1,
            persistent_tasks := (force_cancel_tasks st.persistent_tasks).1 }

/-- Trace of the exit-stack `cleanup`. -/
def cleanupEvents (st : CState) : List Event :=
  (force_cancel_tasks st.model_tasks).2 ++ (force_cancel_tasks st.persistent_tasks).2

/-- Method `Controller.invoke` (lines 115-137): the screen loop wrapped in
the `AsyncExitStack`, whose `cleanup` runs on normal exit and on a
propagating exception alike (not when the flow is merely still
suspended). -/
def invoke (st : CState) (m : ModelBase) (script : List (List RaceStep)) : InvokeRes :=
  match invokeLoop script st m with
  | InvokeRes.ok st1 evs => InvokeRes.ok (cleanupState st1) (evs ++ cleanupEvents st1)
  | InvokeRes.raised e st1 evs => InvokeRes.raised e (cleanupState st1) (evs ++ cleanupEvents st1)
  | InvokeRes.blocked st1 evs => InvokeRes.blocked st1 evs

end Flow

namespace Flow

/-- Effective interaction of `_View.set_result`: `result._interaction`
when present, otherwise the triggering callback's interaction. -/
def effectiveInteraction (result : Result) (interaction : Interaction) : Interaction :=
  match result.interaction with
  | some i => i
  | none => interaction

/-- Whether `exec_result` completes without raising on `r`. -/
def execOk (r : Result) : Bool :=
  r.interaction.isSome &&
  (match r.type with
   | ResultType.MESSAGE => r.message.isSome
   | ResultType.MODEL => r.model.isSome
   | ResultType.CONTINUE | ResultType.FINISH =>
     (match r.interaction with
      | some i => i.response_is_done
      | none => false))

/-- Whether routing `r` through `exec_result` ends the race: a model
transition, a terminal `Finish`, or a re-render whose spec has no items
(line 232 of `controller.py` then returns or sees the view finished).
This is independent of the view state the routing starts from. -/
def execStops (r : Result) : Bool :=
  match r.type with
  | ResultType.MESSAGE =>
    (match r.message with
     | some msg => (msg.items.getD []).isEmpty
     | none => true)
  | ResultType.MODEL => true
  | ResultType.CONTINUE | ResultType.FINISH => r.is_end

/-! Concrete sample data for the witnesses and counterexamples below. -/

/-- A render spec with one button. -/
def msgButton : Message :=
  { content := none, items := some [Item.button], edit_original := false, disable_items := false }

/-- A terminal render spec: `items` absent (`None`). -/
def msgTerminal : Message :=
  { content := some "bye", items := none, edit_original := false, disable_items := false }

/-- A render spec whose `items` is an empty (but non-`None`) sequence. -/
def msgEmptyItems : Message :=
  { content := some "empty", items := some [], edit_original := false, disable_items := false }

/-- An interaction whose response has been acknowledged. -/
def iAck : Interaction := { iid := 0, response_is_done := true }

/-- An interaction whose response has not been acknowledged. -/
def iNoAck : Interaction := { iid := 1, response_is_done := false }

/-- Screen A: one button. -/
def modelA : ModelBase := { mid := 0, msg := msgButton }

/-- Screen B: terminal. -/
def modelB : ModelBase := { mid := 1, msg := msgTerminal }

/-- Transition target of the first-registered task in the tie scenario. -/
def modelX : ModelBase := { mid := 10, msg := msgTerminal }

/-- Transition target of the second-registered task in the tie scenario. -/
def modelY : ModelBase := { mid := 20, msg := msgTerminal }

/-- A running persistent task registered first (id 0). -/
def taskP0 : ETask :=
  { tid := 0, life_time := LifeTime.PERSISTENT, isViewWait := false, status := TStatus.running }

/-- A running persistent task registered second (id 1). -/
def taskP1 : ETask :=
  { tid := 1, life_time := LifeTime.PERSISTENT, isViewWait := false, status := TStatus.running }

/-- A running persistent task registered later (id 5). -/
def taskNew : ETask :=
  { tid := 5, life_time := LifeTime.PERSISTENT, isViewWait := false, status := TStatus.running }

/-- The view of a screen with one button. -/
def viewButton : View := { items := [Item.button], finished := false, result := none }

/-- An unfinished view with no items. -/
def viewEmpty : View := { items := [], finished := false, result := none }

/-- Controller state with one persistent task. -/
def stOneP : CState := { persistent_tasks := [taskP0], model_tasks := [], nextId := 1 }

/-- Controller state with two persistent tasks, in registration order. -/
def stTwoP : CState := { persistent_tasks := [taskP0, taskP1], model_tasks := [], nextId := 2 }

/-- Controller state with one persistent task and the implicit view-wait task. -/
def stRec : CState :=
  { persistent_tasks := [taskP0],
    model_tasks := [{ tid := 1, life_time := LifeTime.MODEL, isViewWait := true,
                      status := TStatus.running }],
    nextId := 2 }

/-- Race step: the view-wait task (id 1) completes with a transition to
screen B. -/
def stepTrans : RaceStep :=
  { completions := [(1, TStatus.success (Result.next_model modelB (some iAck)))],
    doneOrder := [1], newPersistent := [], newModel := [] }

/-- Race step: the persistent background task (id 0) completes with
`Result.finish_flow()` while the user never interacts. -/
def stepFin : RaceStep :=
  { completions := [(0, TStatus.success Result.finish_flow)],
    doneOrder := [0], newPersistent := [], newModel := [] }

/-- Race step: tasks 0 and 1 complete simultaneously with transitions to
two different screens; the Python set of done tasks happens to be
iterated as task 1 before task 0. -/
def stepTie : RaceStep :=
  { completions := [(0, TStatus.success (Result.next_model modelX (some iAck))),
                    (1, TStatus.success (Result.next_model modelY (some iAck)))],
    doneOrder := [1, 0], newPersistent := [], newModel := [] }

/-- Race step: task 0 fails with a recoverable (`Exception`-class) error. -/
def stepRec : RaceStep :=
  { completions := [(0, TStatus.failed { cls := ExcClass.recoverable, code := 3 })],
    doneOrder := [], newPersistent := [], newModel := [] }

/-- Race step: task 0 completes with a non-terminal re-render while a new
persistent task (id 5) is registered during the same iteration. -/
def stepReg : RaceStep :=
  { completions := [(0, TStatus.success (Result.send_message msgButton (some iAck)))],
    doneOrder := [0], newPersistent := [taskNew], newModel := [] }

/-- Race step in which nothing happens. -/
def stepNone : RaceStep :=
  { completions := [], doneOrder := [], newPersistent := [], newModel := [] }

/-- Controller state with no tasks at all. -/
def stEmpty : CState := { persistent_tasks := [], model_tasks := [], nextId := 0 }

/-- Screen E: an empty but non-`None` item sequence. -/
def modelE : ModelBase := { mid := 3, msg := msgEmptyItems }

/-- Race step: task 0 fails with a fatal (non-`Exception`) error. -/
def stepFatal : RaceStep :=
  { completions := [(0, TStatus.failed { cls := ExcClass.fatal, code := 7 })],
    doneOrder := [], newPersistent := [], newModel := [] }

end Flow

namespace Flow

/-- Controller state after the transition race of `stepTrans` on screen A. -/
def stAfterTrans : CState :=
  { persistent_tasks := [taskP0],
    model_tasks := [{ tid := 1, life_time := LifeTime.MODEL, isViewWait := true,
                      status := TStatus.success (Result.next_model modelB (some iAck)) }],
    nextId := 2 }

/-- Trace emitted by `_send` on screen A up to the transition. -/
def evsTrans : List Event :=
  [Event.beforeInvoke 0, Event.send msgButton true, Event.afterInvoke 0]

/-- Controller state after both tasks of the tie race completed. -/
def stTieAfter : CState :=
  { persistent_tasks :=
      [{ tid := 0, life_time := LifeTime.PERSISTENT, isViewWait := false,
         status := TStatus.success (Result.next_model modelX (some iAck)) },
       { tid := 1, life_time := LifeTime.PERSISTENT, isViewWait := false,
         status := TStatus.success (Result.next_model modelY (some iAck)) }],
    model_tasks := [], nextId := 2 }

/-- A completed task whose Result is a non-terminal re-render. -/
def taskMsg : ETask :=
  { tid := 0, life_time := LifeTime.PERSISTENT, isViewWait := false,
    status := TStatus.success (Result.send_message msgButton (some iAck)) }

/-- A completed task whose Result transitions to `modelX`. -/
def taskTrans1 : ETask :=
  { tid := 1, life_time := LifeTime.PERSISTENT, isViewWait := false,
    status := TStatus.success (Result.next_model modelX (some iAck)) }

/-- A completed task whose Result transitions to `modelY`. -/
def taskTrans2 : ETask :=
  { tid := 2, life_time := LifeTime.PERSISTENT, isViewWait := false,
    status := TStatus.success (Result.next_model modelY (some iAck)) }

/-- Every task coming out of `force_cancel_tasks` is finished. -/
theorem force_cancel_tasks_done (ts : List ETask) :
    ∀ t ∈ (force_cancel_tasks ts).1, t.done = true := by
  intro t ht
  simp only [force_cancel_tasks, List.mem_map] at ht
  obtain ⟨u, _hu, rfl⟩ := ht
  cases hs : u.status <;> simp [ETask.done, TStatus.isRunning, hs]

/-- For every input task, `force_cancel_tasks` emits both its `cancel()`
call and the awaited unwind from `gather`. -/
theorem force_cancel_tasks_events (ts : List ETask) :
    ∀ t ∈ ts, Event.cancelTask t.tid ∈ (force_cancel_tasks ts).2 ∧
      Event.awaitTask t.tid ∈ (force_cancel_tasks ts).2 := by
  intro t ht
  simp only [force_cancel_tasks, List.mem_append, List.mem_map]
  exact ⟨Or.inl ⟨t, ht, rfl⟩, Or.inr ⟨t, ht, rfl⟩⟩

/-- Cancellation traces contain no render dispatch. -/
theorem force_cancel_tasks_no_send (ts : List ETask) :
    ∀ e ∈ (force_cancel_tasks ts).2, e.isSend = false := by
  intro e he
  simp only [force_cancel_tasks, List.mem_append, List.mem_map] at he
  rcases he with ⟨t, _, rfl⟩ | ⟨t, _, rfl⟩ <;> rfl

/-- The exit-stack cleanup trace contains no render dispatch. -/
theorem cleanupEvents_no_send (st : CState) :
    ∀ e ∈ cleanupEvents st, e.isSend = false := by
  intro e he
  simp only [cleanupEvents, List.mem_append] at he
  rcases he with h | h
  · exact force_cancel_tasks_no_send _ e h
  · exact force_cancel_tasks_no_send _ e h

/-- C1 (confirmed): for every screen transition applied by
`Controller.invoke` in which the returned next model differs from the
current model, every MODEL-lifetime task in the live set is cancelled and
awaited — the whole cancel/await trace sits strictly before every event
of the continuation, the next model's render included — while the
persistent task list is passed on untouched; a transition returning the
same model cancels nothing and hands the state on unchanged. -/
theorem scope_isolation_on_transition
    (st st1 : CState) (m m2 : ModelBase) (steps : List RaceStep)
    (rest : List (List RaceStep)) (evs : List Event)
    (hsend : _send st m steps = SendRes.next m2 st1 evs) :
    (m2.mid ≠ m.mid →
      invokeLoop (steps :: rest) st m =
        (invokeLoop rest
            { st1 with model_tasks := (force_cancel_tasks st1.model_tasks).1 } m2).prependEvents
          (evs ++ (force_cancel_tasks st1.model_tasks).2)
      ∧ (∀ t ∈ (force_cancel_tasks st1.model_tasks).1, t.done = true)
      ∧ (∀ t ∈ st1.model_tasks,
          Event.cancelTask t.tid ∈ (force_cancel_tasks st1.model_tasks).2 ∧
          Event.awaitTask t.tid ∈ (force_cancel_tasks st1.model_tasks).2)
      ∧ ({ st1 with model_tasks := (force_cancel_tasks st1.model_tasks).1 }).persistent_tasks
          = st1.persistent_tasks)
    ∧ (m2.mid = m.mid →
      invokeLoop (steps :: rest) st m = (invokeLoop rest st1 m).prependEvents evs) := by
  constructor
  · intro hne
    refine ⟨?_, force_cancel_tasks_done _, force_cancel_tasks_events _, rfl⟩
    simp only [invokeLoop, hsend, if_neg hne]
  · intro heq
    simp only [invokeLoop, hsend, if_pos heq]

/-- Witness for C1: screen A's button callback transitions to screen B;
the persistent task survives and the view-wait task is cancelled before
anything further happens. -/
theorem scope_isolation_on_transition_witness :
    _send stOneP modelA [stepTrans] = SendRes.next modelB stAfterTrans evsTrans
    ∧ modelB.mid ≠ modelA.mid
    ∧ invokeLoop [[stepTrans]] stOneP modelA =
        (invokeLoop []
            { stAfterTrans with
              model_tasks := (force_cancel_tasks stAfterTrans.model_tasks).1 } modelB).prependEvents
          (evsTrans ++ (force_cancel_tasks stAfterTrans.model_tasks).2) := by
  refine ⟨by decide, by decide, ?_⟩
  exact ((scope_isolation_on_transition stOneP stAfterTrans modelA modelB [stepTrans] []
    evsTrans (by decide)).1 (by decide)).1

end Flow

namespace Flow

/-- Counterexample to C2 as stated: the claim promises processing of
simultaneously-completed Results in task-registration order.  The done
tasks live in a Python `set`, whose iteration order is unspecified, so
the order is an environment input; with tasks 0 and 1 (registered in
that order) both completed — task 0 transitioning to `modelX`, task 1 to
`modelY` — and the set iterated as `[1, 0]` (a permutation of the done
set, hence an admissible iteration), the authoritative outcome applied
by `Controller._wait_result` is the *second*-registered task's
transition to `modelY`, not the first-registered task's. -/
theorem registration_order_not_followed :
    _wait_result [stepTie] stTwoP viewButton =
      WaitRes.ret (some (modelY, iAck)) stTieAfter
        { items := [Item.button], finished := true, result := none } []
    ∧ stTwoP.persistent_tasks.map ETask.tid = [0, 1]
    ∧ List.Perm stepTie.doneOrder
        (((applyCompletions stepTie.completions (snapshot stTwoP)).filter
            ETask.isSuccess).map ETask.tid)
    ∧ modelY ≠ modelX := by
  exact ⟨by decide, by decide, by decide, by decide⟩

/-- Routing a Result that raises nothing and does not stop the race
(`exec_result` succeeds, yields no transition and leaves the view
unfinished) keeps the done-task loop going. -/
theorem exec_result_nonstop (v : View) (r : Result)
    (hv : v.finished = false) (hok : execOk r = true) (hstop : execStops r = false) :
    ∃ v1 evs, exec_result v r = Except.ok (v1, none, evs) ∧ v1.finished = false := by
  obtain ⟨ty, mo, me, itx, ie⟩ := r
  cases itx with
  | none => simp [execOk] at hok
  | some i =>
    cases ty with
    | MESSAGE =>
      cases me with
      | none => simp [execOk] at hok
      | some msg =>
        simp only [execStops] at hstop
        refine ⟨View.set_items (View.clear_items v) (msg.items.getD []),
          [Event.send msg true], ?_, ?_⟩
        · simp [exec_result, hstop]
        · simp [View.set_items, View.clear_items, hv]
    | MODEL => simp [execStops] at hstop
    | CONTINUE =>
      simp only [execOk, Option.isSome_some, Bool.true_and] at hok
      simp only [execStops] at hstop
      exact ⟨v, [], by simp [exec_result, hok, hstop], hv⟩
    | FINISH =>
      simp only [execOk, Option.isSome_some, Bool.true_and] at hok
      simp only [execStops] at hstop
      exact ⟨v, [], by simp [exec_result, hok, hstop], hv⟩

/-- Routing a Result that stops the race returns from the done-task loop:
either it produced a transition or it left the view finished. -/
theorem exec_result_stop (v : View) (r : Result)
    (hok : execOk r = true) (hstop : execStops r = true) :
    ∃ v1 ret evs, exec_result v r = Except.ok (v1, ret, evs)
      ∧ (ret.isSome || v1.is_finished) = true := by
  obtain ⟨ty, mo, me, itx, ie⟩ := r
  cases itx with
  | none => simp [execOk] at hok
  | some i =>
    cases ty with
    | MESSAGE =>
      cases me with
      | none => simp [execOk] at hok
      | some msg =>
        simp only [execStops] at hstop
        refine ⟨(View.set_items (View.clear_items v) (msg.items.getD [])).stop,
          none, [Event.send msg true], ?_, ?_⟩
        · simp [exec_result, hstop]
        · simp [View.is_finished, View.stop]
    | MODEL =>
      cases mo with
      | none => simp [execOk] at hok
      | some m => exact ⟨v.stop, some (m, i), [], by simp [exec_result], by simp⟩
    | CONTINUE =>
      simp only [execOk, Option.isSome_some, Bool.true_and] at hok
      simp only [execStops] at hstop
      refine ⟨v.stop, none, [], by simp [exec_result, hok, hstop], ?_⟩
      simp [View.is_finished, View.stop]
    | FINISH =>
      simp only [execOk, Option.isSome_some, Bool.true_and] at hok
      simp only [execStops] at hstop
      refine ⟨v.stop, none, [], by simp [exec_result, hok, hstop], ?_⟩
      simp [View.is_finished, View.stop]

/-- C2 (amended): in every race iteration the simultaneously-completed
Results are fed through `exec_result` in the iteration order of the done
set — an order the code leaves unspecified, not necessarily registration
order — and exactly one Result, the first in that order whose routing
yields a transition, finish, or terminal re-render, is applied as the
authoritative outcome: the loop's value does not depend on the Results
after it, which are discarded without being routed. -/
theorem single_consumption_in_done_order
    (view : View) (ts1 : List ETask) (t : ETask) (ts2 : List ETask) (r : Result)
    (hv : view.finished = false)
    (h1 : ∀ u ∈ ts1, ∃ ru, u.status = TStatus.success ru ∧ execOk ru = true ∧ execStops ru = false)
    (ht : t.status = TStatus.success r) (hok : execOk r = true) (hstop : execStops r = true) :
    processDone view (ts1 ++ t :: ts2) = processDone view (ts1 ++ [t])
    ∧ ∃ v2 ret evs, processDone view (ts1 ++ [t]) = Except.ok (v2, DoneOut.returned ret, evs) := by
  induction ts1 generalizing view with
  | nil =>
    obtain ⟨v1, ret, evs, heq, hb⟩ := exec_result_stop view r hok hstop
    constructor
    · simp [processDone, ht, heq, hb]
    · exact ⟨v1, ret, evs, by simp [processDone, ht, heq, hb]⟩
  | cons u us ih =>
    obtain ⟨ru, hu, huok, hustop⟩ := h1 u (by simp)
    obtain ⟨v1, evs, hexec, hv1⟩ := exec_result_nonstop view ru hv huok hustop
    have ih' := ih v1 hv1 (fun w hw => h1 w (by simp [hw]))
    constructor
    · simp only [List.cons_append, processDone, hu, hexec, View.is_finished, hv1,
        Option.isSome_none, Bool.false_or, if_neg Bool.false_ne_true, List.append_eq]
      rw [ih'.1]
    · obtain ⟨v2, ret, evs2, heq2⟩ := ih'.2
      refine ⟨v2, ret, evs ++ evs2, ?_⟩
      simp only [List.cons_append, processDone, hu, hexec, View.is_finished, hv1,
        Option.isSome_none, Bool.false_or, if_neg Bool.false_ne_true, List.append_eq]
      rw [heq2]

end Flow

namespace Flow

/-- Witness for C2 (amended): a non-terminal re-render, then a transition
to `modelX`, then a transition to `modelY`, iterated in that order — the
result is the same with or without the trailing task, and the loop
returns an authoritative outcome. -/
theorem single_consumption_in_done_order_witness :
    processDone viewButton ([taskMsg] ++ taskTrans1 :: [taskTrans2]) =
      processDone viewButton ([taskMsg] ++ [taskTrans1])
    ∧ ∃ v2 ret evs, processDone viewButton ([taskMsg] ++ [taskTrans1]) =
        Except.ok (v2, DoneOut.returned ret, evs) := by
  refine single_consumption_in_done_order viewButton [taskMsg] taskTrans1 [taskTrans2]
    (Result.next_model modelX (some iAck)) (by decide) ?_ (by decide) (by decide) (by decide)
  intro u hu
  simp only [List.mem_singleton] at hu
  subst hu
  exact ⟨Result.send_message msgButton (some iAck), by decide, by decide, by decide⟩

/-- A nonempty list has `isEmpty = false`. -/
theorem isEmpty_false_of_ne_nil {α : Type} {l : List α} (h : l ≠ []) : l.isEmpty = false := by
  cases l with
  | nil => exact absurd rfl h
  | cons a t => rfl

/-- The raced snapshot taken right after `_get_view_wait_task` registered
the implicit wait task is never empty. -/
theorem snapshot_registerWait_ne_nil (st : CState) :
    snapshot (registerWait st) ≠ [] := by
  simp only [snapshot, registerWait, List.filter_append]
  intro h
  rcases List.append_eq_nil.mp h with ⟨-, h2⟩
  rcases List.append_eq_nil.mp h2 with ⟨-, h3⟩
  simp [ETask.done, TStatus.isRunning] at h3

/-- Boolean form of `snapshot_registerWait_ne_nil`. -/
theorem snapshot_registerWait_isEmpty (st : CState) :
    (snapshot (registerWait st)).isEmpty = false :=
  isEmpty_false_of_ne_nil (snapshot_registerWait_ne_nil st)

/-- A nonempty fatal-exception list comes from a failed member task. -/
theorem fatalExcs_ne_nil_mem (ts : List ETask) (h : fatalExcs ts ≠ []) :
    ∃ t ∈ ts, ∃ e, t.status = TStatus.failed e := by
  cases hl : fatalExcs ts with
  | nil => exact absurd hl h
  | cons e es =>
    have he : e ∈ fatalExcs ts := by rw [hl]; exact List.mem_cons_self e es
    rcases List.mem_filterMap.mp he with ⟨t, ht, hft⟩
    refine ⟨t, ht, ?_⟩
    cases hs : t.status with
    | failed e' => exact ⟨e', rfl⟩
    | running => rw [hs] at hft; simp at hft
    | success r => rw [hs] at hft; simp at hft
    | cancelled => rw [hs] at hft; simp at hft

/-- A list containing a failed task does not consist of running tasks
only (`asyncio.wait` has returned). -/
theorem failed_mem_not_all_running (ts : List ETask) (t : ETask) (e : BExc)
    (ht : t ∈ ts) (hs : t.status = TStatus.failed e) :
    ts.all (fun u => !u.done) = false := by
  cases hall : ts.all (fun u => !u.done) with
  | false => rfl
  | true =>
    have := (List.all_eq_true.mp hall) t ht
    simp [ETask.done, TStatus.isRunning, hs] at this

/-- C3 (confirmed): whenever a raced task fails with a non-recoverable
error (a `BaseException` that is not an `Exception`), `Controller.invoke`
propagates a `BaseExceptionGroup` of exactly the fatal errors: the race
loop returns no further outcome, the only render ever dispatched is the
one already sent for the current screen (the exit-stack cleanup emits no
send), and before the error leaves `invoke` every task of both lifetimes
is cancelled and its unwind awaited. -/
theorem fatal_short_circuit
    (st : CState) (m : ModelBase) (its : List Item) (step : RaceStep)
    (rest : List RaceStep) (script : List (List RaceStep))
    (hItems : m.msg.items = some its)
    (hfat : fatalExcs (applyCompletions step.completions (snapshot (registerWait st))) ≠ []) :
    invoke st m ((step :: rest) :: script) =
      InvokeRes.raised
        (Err.baseExceptionGroup
          (fatalExcs (applyCompletions step.completions (snapshot (registerWait st)))))
        (cleanupState (stepState (registerWait st) step))
        ([Event.beforeInvoke m.mid, Event.send m.msg true] ++
          cleanupEvents (stepState (registerWait st) step))
    ∧ (∀ e ∈ cleanupEvents (stepState (registerWait st) step), e.isSend = false)
    ∧ (∀ t ∈ (cleanupState (stepState (registerWait st) step)).model_tasks, t.done = true)
    ∧ (∀ t ∈ (cleanupState (stepState (registerWait st) step)).persistent_tasks, t.done = true)
    ∧ (∀ t ∈ (stepState (registerWait st) step).model_tasks,
        Event.awaitTask t.tid ∈ cleanupEvents (stepState (registerWait st) step))
    ∧ (∀ t ∈ (stepState (registerWait st) step).persistent_tasks,
        Event.awaitTask t.tid ∈ cleanupEvents (stepState (registerWait st) step)) := by
  obtain ⟨t, htm, e, hts⟩ := fatalExcs_ne_nil_mem _ hfat
  have hall := failed_mem_not_all_running _ t e htm hts
  have hsnape := snapshot_registerWait_isEmpty st
  have hfatE := isEmpty_false_of_ne_nil hfat
  refine ⟨?_, cleanupEvents_no_send _, force_cancel_tasks_done _, force_cancel_tasks_done _,
    ?_, ?_⟩
  · simp only [invoke, invokeLoop, _send, hItems, _wait_result, View.is_finished,
      hsnape, hall, hfatE, Bool.not_false, Bool.false_eq_true, if_false, if_true,
      List.append_nil, List.nil_append]
  · intro u hu
    exact List.mem_append.mpr (Or.inl (force_cancel_tasks_events _ u hu).2)
  · intro u hu
    exact List.mem_append.mpr (Or.inr (force_cancel_tasks_events _ u hu).2)

/-- Witness for C3: the persistent task fails fatally during the first
race on screen A; `invoke` raises the group after cleaning up. -/
theorem fatal_short_circuit_witness :
    modelA.msg.items = some [Item.button]
    ∧ fatalExcs (applyCompletions stepFatal.completions (snapshot (registerWait stOneP))) ≠ []
    ∧ invoke stOneP modelA [[stepFatal]] =
        InvokeRes.raised
          (Err.baseExceptionGroup
            (fatalExcs (applyCompletions stepFatal.completions (snapshot (registerWait stOneP)))))
          (cleanupState (stepState (registerWait stOneP) stepFatal))
          ([Event.beforeInvoke modelA.mid, Event.send modelA.msg true] ++
            cleanupEvents (stepState (registerWait stOneP) stepFatal)) := by
  refine ⟨by decide, by decide, ?_⟩
  exact (fatal_short_circuit stOneP modelA [Item.button] stepFatal [] []
    (by decide) (by decide)).1

/-- A nonempty recoverable-exception list comes from a failed member task. -/
theorem recoverableExcs_ne_nil_mem (ts : List ETask) (h : recoverableExcs ts ≠ []) :
    ∃ t ∈ ts, ∃ e, t.status = TStatus.failed e := by
  cases hl : recoverableExcs ts with
  | nil => exact absurd hl h
  | cons e es =>
    have he : e ∈ recoverableExcs ts := by rw [hl]; exact List.mem_cons_self e es
    rcases List.mem_filterMap.mp he with ⟨t, ht, hft⟩
    refine ⟨t, ht, ?_⟩
    cases hs : t.status with
    | failed e' => exact ⟨e', rfl⟩
    | running => rw [hs] at hft; simp at hft
    | success r => rw [hs] at hft; simp at hft
    | cancelled => rw [hs] at hft; simp at hft

/-- Iterating an empty done set processes nothing, whatever the order. -/
theorem orderBy_nil (order : List Nat) : orderBy order [] = [] := by
  induction order with
  | nil => rfl
  | cons a l ih => simp only [orderBy, List.filterMap_cons, List.find?_nil]; exact ih

/-- Every task of a raced snapshot is still running: finished tasks are
excluded when the snapshot is taken, so a task that failed in an earlier
iteration is never raced again. -/
theorem snapshot_all_running (s : CState) : ∀ t ∈ snapshot s, t.status.isRunning = true := by
  intro u hu
  simp only [snapshot, List.mem_append, List.mem_filter] at hu
  rcases hu with ⟨-, h⟩ | ⟨-, h⟩ <;>
    · simp only [ETask.done, Bool.not_not] at h
      exact h

/-- C4 (confirmed): in a race iteration whose completions are exactly
recoverable (`Exception`-class) failures, all of them are aggregated into
one group handed to the `on_error` hook (whose default implementation
only logs) in a single call, the loop then continues with the next
iteration — no exception propagates from this iteration — and the failed
tasks are dropped from the raced set: the next snapshot holds running
tasks only. -/
theorem recoverable_errors_aggregated
    (st : CState) (view : View) (step : RaceStep) (rest : List RaceStep)
    (hv : view.finished = false)
    (hsnap : (snapshot st).isEmpty = false)
    (hfat : fatalExcs (applyCompletions step.completions (snapshot st)) = [])
    (hrec : recoverableExcs (applyCompletions step.completions (snapshot st)) ≠ [])
    (hdone : (applyCompletions step.completions (snapshot st)).filter ETask.isSuccess = []) :
    _wait_result (step :: rest) st view =
      (_wait_result rest (stepState st step) view).prependEvents
        [Event.onError (recoverableExcs (applyCompletions step.completions (snapshot st)))]
    ∧ (∀ t ∈ snapshot (stepState st step), t.status.isRunning = true) := by
  obtain ⟨t, htm, e, hts⟩ := recoverableExcs_ne_nil_mem _ hrec
  have hall := failed_mem_not_all_running _ t e htm hts
  have hrecE := isEmpty_false_of_ne_nil hrec
  refine ⟨?_, snapshot_all_running _⟩
  simp only [_wait_result, View.is_finished, hv, hsnap, hall, hfat, hrecE, hdone,
    orderBy_nil, processDone, List.isEmpty_nil, Bool.not_true, Bool.false_eq_true,
    if_false, List.append_nil, List.nil_append]

/-- Witness for C4: the persistent task fails recoverably while the
view-wait task keeps running; the loop forwards one aggregated group to
`on_error` and continues. -/
theorem recoverable_errors_aggregated_witness :
    viewButton.finished = false
    ∧ recoverableExcs (applyCompletions stepRec.completions (snapshot stRec)) ≠ []
    ∧ _wait_result [stepRec] stRec viewButton =
        (_wait_result [] (stepState stRec stepRec) viewButton).prependEvents
          [Event.onError (recoverableExcs (applyCompletions stepRec.completions (snapshot stRec)))] := by
  refine ⟨by decide, by decide, ?_⟩
  exact (recoverable_errors_aggregated stRec viewButton stepRec [] (by decide) (by decide)
    (by decide) (by decide) (by decide)).1

end Flow

namespace Flow

/-- C5 (code bug): a persistent background task registered before the
render completes with `Result.finish_flow()` while the user never
interacts.  `finish_flow` cannot carry an interaction, and `exec_result`
demands `result._interaction` for *every* Result before looking at its
variant, so instead of ending the flow cleanly, `Controller.invoke`
terminates by raising `ValueError('result._interaction is None.')` out of
the race loop (after the exit-stack cleanup cancelled the remaining
tasks). -/
theorem background_finish_raises_value_error :
    Result.finish_flow.interaction = none
    ∧ invoke stOneP modelA [[stepFin]] =
        InvokeRes.raised (Err.valueError "result._interaction is None.")
          { persistent_tasks :=
              [{ tid := 0, life_time := LifeTime.PERSISTENT, isViewWait := false,
                 status := TStatus.success Result.finish_flow }],
            model_tasks :=
              [{ tid := 1, life_time := LifeTime.MODEL, isViewWait := true,
                 status := TStatus.cancelled }],
            nextId := 2 }
          [Event.beforeInvoke 0, Event.send msgButton true, Event.cancelTask 1,
           Event.awaitTask 1, Event.cancelTask 0, Event.awaitTask 0] := by
  exact ⟨rfl, by decide⟩

/-- C6 (confirmed): for every model whose message carries no items
(`items is None`), the controller sends the message without a view and
never waits: no view-wait task is registered, `after_invoke` runs
directly after the send, and `invoke`'s loop exits — whatever the
remaining schedule would have offered. -/
theorem terminal_screen_no_wait
    (st : CState) (m : ModelBase) (steps : List RaceStep) (script : List (List RaceStep))
    (hItems : m.msg.items = none) :
    invoke st m (steps :: script) =
      InvokeRes.ok (cleanupState st)
        ([Event.beforeInvoke m.mid, Event.send m.msg false, Event.afterInvoke m.mid] ++
          cleanupEvents st) := by
  simp only [invoke, invokeLoop, _send, hItems]

/-- Witness for C6: the terminal screen B ends the flow at once. -/
theorem terminal_screen_no_wait_witness :
    modelB.msg.items = none
    ∧ invoke stOneP modelB [[]] =
        InvokeRes.ok (cleanupState stOneP)
          ([Event.beforeInvoke modelB.mid, Event.send modelB.msg false,
            Event.afterInvoke modelB.mid] ++ cleanupEvents stOneP) :=
  ⟨rfl, terminal_screen_no_wait stOneP modelB [] [] rfl⟩

/-- C7 (confirmed): a callback result of type `Continue` or `Finish`
whose effective interaction response is unacknowledged makes the view
routing raise the hard `RuntimeError('Callback MUST consume
interaction.')`; with the response acknowledged, `Continue` is routed
without error and leaves the view untouched (the flow keeps waiting),
`Finish` is routed without error and stops the view.  The same
unconsumed-context check guards the external-task path `exec_result`. -/
theorem unconsumed_context_detection (view : View) (r : Result) (i : Interaction) :
    ((r.type = ResultType.CONTINUE ∨ r.type = ResultType.FINISH) →
      (effectiveInteraction r i).response_is_done = false →
      View.set_result view r i =
        Except.error (Err.runtimeError "Callback MUST consume interaction."))
    ∧ (r.type = ResultType.CONTINUE → r.is_end = false →
      (effectiveInteraction r i).response_is_done = true →
      View.set_result view r i = Except.ok (view, []))
    ∧ (r.type = ResultType.FINISH → r.is_end = true →
      (effectiveInteraction r i).response_is_done = true →
      View.set_result view r i = Except.ok (view.stop, []))
    ∧ (∀ j, r.interaction = some j →
      (r.type = ResultType.CONTINUE ∨ r.type = ResultType.FINISH) →
      j.response_is_done = false →
      exec_result view r =
        Except.error (Err.runtimeError "Callback MUST consume interaction.")) := by
  refine ⟨?_, ?_, ?_, ?_⟩
  · intro hty hdone
    simp only [effectiveInteraction] at hdone
    rcases hty with h | h <;> simp [View.set_result, h, hdone]
  · intro hty hend hdone
    simp only [effectiveInteraction] at hdone
    simp [View.set_result, hty, hend, hdone]
  · intro hty hend hdone
    simp only [effectiveInteraction] at hdone
    simp [View.set_result, hty, hend, hdone]
  · intro j hj hty hdone
    rcases hty with h | h <;> simp [exec_result, hj, h, hdone]

/-- Witness for C7: an unacknowledged `Continue` raises; an acknowledged
one is a silent no-op. -/
theorem unconsumed_context_detection_witness :
    View.set_result viewButton Result.continue_flow iNoAck =
      Except.error (Err.runtimeError "Callback MUST consume interaction.")
    ∧ View.set_result viewButton Result.continue_flow iAck = Except.ok (viewButton, []) :=
  ⟨(unconsumed_context_detection viewButton Result.continue_flow iNoAck).1
      (Or.inl rfl) (by decide),
   (unconsumed_context_detection viewButton Result.continue_flow iAck).2.1 rfl rfl (by decide)⟩

end Flow

namespace Flow

/-- Counterexample to C8 as stated: the claim promises that with an empty
snapshot the wait loop blocks on a "new task arrived" signal and retries.
No such signal exists in the code: with both task lists empty and the
view still waiting, `Controller._wait_result` hands the empty set to
`asyncio.wait`, which raises `ValueError` — the loop fails instead of
blocking and retrying. -/
theorem empty_snapshot_wait_fails :
    snapshot stEmpty = []
    ∧ _wait_result [stepNone] stEmpty viewButton =
        WaitRes.err (Err.valueError "Set of Tasks or Futures is empty.")
          stEmpty viewButton [] := by
  exact ⟨rfl, by decide⟩

/-- C8 (amended): registering an external task never suspends the caller
(`create_external_result` is a plain state transformation): it appends
the freshly started task to the list selected by its lifetime, leaving
the other list alone.  There is no separate "new work" signal: the race
loop recomputes its snapshot from the task lists on every iteration, so
a task registered during an in-progress wait iteration is in the live
set handed to the next iteration, and — if still running — in the next
raced snapshot; an empty snapshot, by contrast, makes the wait step
raise `ValueError` (see the counterexample). -/
theorem register_nonblocking_and_raced_next_iteration
    (st : CState) (view : View) (step : RaceStep) (rest : List RaceStep)
    (v1 : View) (evs1 : List Event)
    (hv : view.finished = false)
    (hsnap : (snapshot st).isEmpty = false)
    (hnotall : (applyCompletions step.completions (snapshot st)).all (fun t => !t.done) = false)
    (hfat : fatalExcs (applyCompletions step.completions (snapshot st)) = [])
    (hrec : recoverableExcs (applyCompletions step.completions (snapshot st)) = [])
    (hproc : processDone view
        (orderBy step.doneOrder
          ((applyCompletions step.completions (snapshot st)).filter ETask.isSuccess)) =
        Except.ok (v1, DoneOut.fellThrough, evs1)) :
    (∀ s : CState,
      (create_external_result s LifeTime.PERSISTENT).1.persistent_tasks =
        s.persistent_tasks ++ [(create_external_result s LifeTime.PERSISTENT).2]
      ∧ (create_external_result s LifeTime.PERSISTENT).1.model_tasks = s.model_tasks
      ∧ (create_external_result s LifeTime.MODEL).1.model_tasks =
          s.model_tasks ++ [(create_external_result s LifeTime.MODEL).2]
      ∧ (create_external_result s LifeTime.MODEL).1.persistent_tasks = s.persistent_tasks
      ∧ (create_external_result s LifeTime.PERSISTENT).2.status = TStatus.running)
    ∧ _wait_result (step :: rest) st view =
        (_wait_result rest (stepState st step) v1).prependEvents evs1
    ∧ (∀ u ∈ step.newPersistent, u ∈ (stepState st step).persistent_tasks
        ∧ (u.status.isRunning = true → u ∈ snapshot (stepState st step)))
    ∧ (∀ u ∈ step.newModel, u ∈ (stepState st step).model_tasks
        ∧ (u.status.isRunning = true → u ∈ snapshot (stepState st step))) := by
  refine ⟨fun s => ⟨rfl, rfl, rfl, rfl, rfl⟩, ?_, ?_, ?_⟩
  · simp [_wait_result, View.is_finished, hv, hsnap, hnotall, hfat, hrec, hproc]
  · intro u hu
    refine ⟨?_, fun hrun => ?_⟩
    · simp only [stepState, List.mem_append]
      exact Or.inr hu
    · simp only [snapshot, stepState, List.mem_append, List.mem_filter, ETask.done]
      exact Or.inl ⟨Or.inr hu, by simp [hrun]⟩
  · intro u hu
    refine ⟨?_, fun hrun => ?_⟩
    · simp only [stepState, List.mem_append]
      exact Or.inr hu
    · simp only [snapshot, stepState, List.mem_append, List.mem_filter, ETask.done]
      exact Or.inr ⟨Or.inr hu, by simp [hrun]⟩

/-- Witness for C8 (amended): task 0's non-terminal re-render completes
while task 5 is registered in the same iteration; the loop continues and
task 5 is in the next raced snapshot. -/
theorem register_nonblocking_witness :
    _wait_result [stepReg] stOneP viewButton =
      (_wait_result [] (stepState stOneP stepReg) viewButton).prependEvents
        [Event.send msgButton true]
    ∧ taskNew ∈ (stepState stOneP stepReg).persistent_tasks
    ∧ taskNew ∈ snapshot (stepState stOneP stepReg) := by
  have h := register_nonblocking_and_raced_next_iteration stOneP viewButton stepReg []
    viewButton [Event.send msgButton true] (by decide) (by decide) (by decide) (by decide)
    (by decide) (by rfl)
  refine ⟨h.2.1, (h.2.2.1 taskNew (by decide)).1, (h.2.2.1 taskNew (by decide)).2 (by decide)⟩

/-- Counterexample to C9 as stated: the claim exempts `Continue` (and
`Finish`) from the origin-context requirement, but `exec_result` checks
`result._interaction` before looking at the variant, so even a
`Result.continue_flow()` — which cannot carry an interaction — raises
`ValueError` when executed on the external-task path. -/
theorem continue_without_context_errors :
    Result.continue_flow.interaction = none
    ∧ exec_result viewEmpty Result.continue_flow =
        Except.error (Err.valueError "result._interaction is None.") :=
  ⟨rfl, rfl⟩

/-- C9 (amended): on the external-task path (`exec_result`) *every*
Result variant — `Continue` and `Finish` included — must carry an origin
interaction context, and absence is surfaced as the programming error
`ValueError('result._interaction is None.')`; on the view-callback path
(`set_result`) a missing origin context is never an error, because the
triggering callback's own interaction is the fallback (shown here for
the transition variant). -/
theorem origin_context_requirement :
    (∀ (view : View) (r : Result), r.interaction = none →
      exec_result view r = Except.error (Err.valueError "result._interaction is None."))
    ∧ (∀ (view : View) (m : ModelBase) (i : Interaction),
      View.set_result view (Result.next_model m none) i =
        Except.ok ({ items := view.items, finished := true, result := some (m, i) }, [])) := by
  constructor
  · intro view r h
    simp [exec_result, h]
  · intro view m i
    rfl

/-- Witness for C9 (amended): `finish_flow` on the external-task path
errors; a context-less transition on the callback path succeeds with the
callback's interaction. -/
theorem origin_context_requirement_witness :
    exec_result viewButton Result.finish_flow =
      Except.error (Err.valueError "result._interaction is None.")
    ∧ View.set_result viewButton (Result.next_model modelB none) iAck =
        Except.ok ({ items := viewButton.items, finished := true,
                     result := some (modelB, iAck) }, []) :=
  ⟨origin_context_requirement.1 viewButton Result.finish_flow rfl,
   origin_context_requirement.2 viewButton modelB iAck⟩

/-- C10 (confirmed): only `items is None` makes a screen terminal in
`Controller._send` — with an empty but non-`None` item sequence the
controller still builds a view, registers the implicit wait task and
enters the race loop (here: left waiting by the empty schedule), whereas
`items is None` sends without a view and returns immediately; by
contrast, a `ShowMessage` routed through `exec_result` stops the view
whenever the new spec's items are `None` *or* empty, and keeps it alive
exactly when they are nonempty. -/
theorem items_none_vs_empty :
    (∀ (st : CState) (m : ModelBase) (its : List Item), m.msg.items = some its →
      _send st m [] = SendRes.blocked (registerWait st)
        [Event.beforeInvoke m.mid, Event.send m.msg true])
    ∧ (∀ (st : CState) (m : ModelBase), m.msg.items = none →
      _send st m [] = SendRes.done st
        [Event.beforeInvoke m.mid, Event.send m.msg false, Event.afterInvoke m.mid])
    ∧ (∀ (view : View) (msg : Message) (i : Interaction),
      msg.items = none ∨ msg.items = some [] →
      exec_result view (Result.send_message msg (some i)) =
        Except.ok ({ items := [], finished := true, result := view.result }, none,
          [Event.send msg true]))
    ∧ (∀ (view : View) (msg : Message) (i : Interaction) (x : Item) (xs : List Item),
      msg.items = some (x :: xs) →
      exec_result view (Result.send_message msg (some i)) =
        Except.ok ({ items := x :: xs, finished := view.finished, result := view.result },
          none, [Event.send msg true])) := by
  refine ⟨?_, ?_, ?_, ?_⟩
  · intro st m its h
    simp [_send, h, _wait_result, View.is_finished]
  · intro st m h
    simp [_send, h]
  · intro view msg i h
    rcases h with h | h <;>
      simp [exec_result, Result.send_message, h, View.set_items, View.clear_items, View.stop]
  · intro view msg i x xs h
    simp [exec_result, Result.send_message, h, View.set_items, View.clear_items]

/-- Witness for C10: screen E (empty item list) waits; the empty-items
and one-button `ShowMessage` cases stop and keep the view respectively. -/
theorem items_none_vs_empty_witness :
    msgEmptyItems.items = some []
    ∧ _send stOneP modelE [] =
        SendRes.blocked (registerWait stOneP)
          [Event.beforeInvoke 3, Event.send msgEmptyItems true]
    ∧ exec_result viewButton (Result.send_message msgEmptyItems (some iAck)) =
        Except.ok ({ items := [], finished := true, result := viewButton.result }, none,
          [Event.send msgEmptyItems true])
    ∧ exec_result viewEmpty (Result.send_message msgButton (some iAck)) =
        Except.ok ({ items := [Item.button], finished := viewEmpty.finished,
                     result := viewEmpty.result }, none, [Event.send msgButton true]) := by
  refine ⟨rfl, ?_, ?_, ?_⟩
  · exact items_none_vs_empty.1 stOneP modelE [] rfl
  · exact items_none_vs_empty.2.2.1 viewButton msgEmptyItems iAck (Or.inr rfl)
  · exact items_none_vs_empty.2.2.2 viewEmpty msgButton iAck Item.button [] rfl

end Flow
